import Mathlib

/-!
Shallow embedding of the reddit2markdown Cloudflare worker
(`src/worker/src/index.ts`, extended by the OG-preview variant of the same
worker): URL validation, the upstream fetch state machine, the error
taxonomy and its HTTP mapping, and the crawler preview synthesizer.

JavaScript platform primitives that the worker calls (`new URL`,
`JSON.parse`, `encodeURIComponent`, `Headers.get`, string methods) are
modelled as executable Lean functions; worker code is translated
definition by definition.  Network effects are made explicit: the outcome
of the single upstream `fetch` is an input (`UpstreamOutcome`), and the
shared response cache is threaded as explicit state.  An uncaught
JavaScript exception is modelled by `none` / a `crash` constructor.
-/

namespace RedditProxy

/-! ### Generic string helpers (models of JS string primitives) -/

/-- Model of JavaScript `String.prototype.toLowerCase` (ASCII range, which
is all the worker ever lowercases). -/
def toLowerStr (s : String) : String :=
  String.mk (s.data.map Char.toLower)

/-- Does the list start with the given pattern?  Returns the remainder on
success. -/
def dropPrefixL : List Char → List Char → Option (List Char)
  | [], l => some l
  | _ :: _, [] => none
  | p :: ps, a :: as => if p = a then dropPrefixL ps as else none

/-- Is `ps` a prefix of `l`? -/
def hasPrefixL (ps l : List Char) : Bool :=
  (dropPrefixL ps l).isSome

/-- Does `l` contain `needle` as a contiguous substring? -/
def hasSubstrL (needle : List Char) : List Char → Bool
  | [] => needle.isEmpty
  | a :: as => hasPrefixL needle (a :: as) || hasSubstrL needle as

/-- Model of JavaScript `String.prototype.includes` (substring test,
case-sensitive). -/
def strIncludes (s sub : String) : Bool :=
  hasSubstrL sub.data s.data

/-- Left and right curly brace characters (kept out of string literals). -/
def lbraceChar : Char := Char.ofNat 123

def rbraceChar : Char := Char.ofNat 125

/-- Apostrophe character. -/
def aposChar : Char := Char.ofNat 39

/-! ### Error taxonomy and HTTP responses -/

/-- The closed error taxonomy of the worker (spec section 7). -/
inductive ErrorCode
  | missing_url
  | invalid_url
  | https_required
  | host_not_allowed
  | invalid_path
  | method_not_allowed
  | rate_limited
  | upstream_forbidden
  | upstream_error
  | upstream_parse_error
  | response_too_large
  | upstream_timeout
  | upstream_unreachable
deriving DecidableEq

/-- A response body.  `jsonError e m` abstracts the JSON serialization of
the error record the worker passes to `jsonResponse` (an object whose
`error` field is the code and whose optional `message` field is the
human-readable detail); `text` is a raw passthrough or HTML body. -/
inductive Body
  | jsonError (error : ErrorCode) (message : Option String)
  | text (s : String)
deriving DecidableEq

/-- Model of the worker's `Response` values: status, header list, body. -/
structure Response where
  status : Nat
  headers : List (String × String)
  body : Body
deriving DecidableEq

/-- Model of `Headers.get`: header-name lookup is case-insensitive, the
value is returned verbatim. -/
def headerGet (hs : List (String × String)) (name : String) : Option String :=
  (hs.find? (fun p => toLowerStr p.1 = toLowerStr name)).map (fun p => p.2)

/-- Embedding of the worker's `jsonResponse` helper, specialized to the
error records that are its only call sites. -/
def jsonResponse (error : ErrorCode) (message : Option String) (status : Nat)
    (extraHeaders : List (String × String)) : Response :=
  { status := status
    headers := ("Content-Type", "application/json") :: extraHeaders
    body := .jsonError error message }

/-- Embedding of the worker's `htmlResponse` helper (always called with the
default status 200). -/
def htmlResponse (html : String) : Response :=
  { status := 200
    headers := [("Content-Type", "text/html; charset=utf-8")]
    body := .text html }

/-! ### Worker constants -/

def ALLOWED_HOSTS : List String := ["www.reddit.com", "old.reddit.com"]

def MAX_RESPONSE_BYTES : Nat := 5 * 1024 * 1024

def CACHE_TTL_SECONDS : Nat := 60

def BOT_UA_PATTERNS : List String :=
  ["Slackbot", "Discordbot", "Twitterbot", "facebookexternalhit",
   "LinkedInBot", "AppleBot", "WhatsApp", "TelegramBot"]

/-- Embedding of the worker's `isCrawler`. -/
def isCrawler (ua : String) : Bool :=
  BOT_UA_PATTERNS.any (fun p => strIncludes (toLowerStr ua) (toLowerStr p))

/-! ### Model of the platform URL parser -/

/-- The fields of a parsed URL that the worker reads: `protocol` includes
the trailing colon, `hostname` excludes port and userinfo, `pathname`
excludes query and fragment. -/
structure URLRec where
  protocol : String
  hostname : String
  pathname : String
deriving DecidableEq

def isSchemeChar (c : Char) : Bool :=
  c.isAlpha || c.isDigit || c = '+' || c = '-' || c = '.'

def isAuthorityChar (c : Char) : Bool :=
  c ≠ '/' && c ≠ '?' && c ≠ '#'

def isPathChar (c : Char) : Bool :=
  c ≠ '?' && c ≠ '#'

/-- Drop a `userinfo@` prefix from an authority (JS keeps what follows the
last `@`). -/
def dropUserinfo (l : List Char) : List Char :=
  if l.contains '@' then (l.reverse.takeWhile (fun c => c ≠ '@')).reverse else l

/-- Drop a `:port` suffix from a host. -/
def dropPort (l : List Char) : List Char :=
  l.takeWhile (fun c => c ≠ ':')

/-- Model of the platform `new URL` constructor on absolute URLs, reduced
to the fields the worker reads.  A hosted URL is `scheme://authority/path`;
the authority is lowercased and stripped of userinfo and port, an empty
host is a parse failure, and the pathname of a hostless hosted URL is `/`.
A scheme followed by something other than `//` parses as an opaque-path
URL with empty hostname (the worker then rejects it by scheme or host).
Path normalization and percent-encoding are not modelled. -/
def parseURL (s : String) : Option URLRec :=
  let l := s.data
  let scheme := l.takeWhile isSchemeChar
  let rest := l.dropWhile isSchemeChar
  if scheme.isEmpty then none
  else if ¬ (scheme.headD ' ').isAlpha then none
  else if rest.headD ' ' ≠ ':' then none
  else
    let r1 := rest.tail
    if r1.headD ' ' = '/' ∧ r1.tail.headD ' ' = '/' then
      let r2 := r1.tail.tail
      let host := (dropPort (dropUserinfo (r2.takeWhile isAuthorityChar))).map Char.toLower
      if host.isEmpty then none
      else
        let path := (r2.dropWhile isAuthorityChar).takeWhile isPathChar
        some { protocol := String.mk (scheme.map Char.toLower) ++ ":"
               hostname := String.mk host
               pathname := if path.isEmpty then "/" else String.mk path }
    else
      some { protocol := String.mk (scheme.map Char.toLower) ++ ":"
             hostname := ""
             pathname := String.mk (r1.takeWhile isPathChar) }

/-! ### The URL validator -/

def isSubredditChar (c : Char) : Bool :=
  c.isAlpha || c.isDigit || c = '_'

def isThreadIdChar (c : Char) : Bool :=
  c.isLower || c.isDigit

/-- Embedding of `THREAD_PATH_RE.test`, the regex
`/r/[A-Za-z0-9_]+/comments/[a-z0-9]+` with an optional trailing
`/[^?#]*` slug, anchored at both ends.  The character classes exclude
`/`, so the greedy scan below is equivalent to the backtracking regex. -/
def threadPathTest (l : List Char) : Bool :=
  match dropPrefixL "/r/".data l with
  | none => false
  | some r1 =>
    let sub := r1.takeWhile isSubredditChar
    if sub.isEmpty then false
    else
      match dropPrefixL "/comments/".data (r1.dropWhile isSubredditChar) with
      | none => false
      | some r2 =>
        let tid := r2.takeWhile isThreadIdChar
        if tid.isEmpty then false
        else
          let rest := r2.dropWhile isThreadIdChar
          if rest.isEmpty then true
          else if rest.headD ' ' = '/' then rest.tail.all isPathChar
          else false

/-- Embedding of `pathname.replace(/\/+$/, '')`: strip every trailing
slash. -/
def dropTrailingSlashes (l : List Char) : List Char :=
  (l.reverse.dropWhile (fun c => c = '/')).reverse

/-- Result of `validateRedditUrl`: either the derived `.json` URL together
with hostname and normalized path (the `TargetSpec`), or an error
response. -/
inductive ValidateResult
  | ok (jsonUrl hostname cleanPath : String)
  | err (response : Response)
deriving DecidableEq

/-- Embedding of the worker's `validateRedditUrl`.  The input is the raw
`?url=` parameter (`none` models JS `null`); note that the source guard
`if (!targetParam)` also fires on the empty string, which is falsy. -/
def validateRedditUrl (targetParam : Option String) : ValidateResult :=
  match targetParam with
  | none =>
    .err (jsonResponse .missing_url (some "Provide a Reddit thread URL as ?url=…") 400 [])
  | some t =>
    if t = "" then
      .err (jsonResponse .missing_url (some "Provide a Reddit thread URL as ?url=…") 400 [])
    else
      match parseURL t with
      | none => .err (jsonResponse .invalid_url (some "Not a valid URL") 400 [])
      | some target =>
        if target.protocol ≠ "https:" then
          .err (jsonResponse .https_required (some "Only HTTPS URLs are allowed") 400 [])
        else if ¬ ALLOWED_HOSTS.contains target.hostname then
          .err (jsonResponse .host_not_allowed (some "Only Reddit URLs are allowed") 400 [])
        else
          let cleanPath := String.mk (dropTrailingSlashes target.pathname.data)
          if ¬ threadPathTest cleanPath.data then
            .err (jsonResponse .invalid_path (some "URL must be a Reddit thread (/r/…/comments/…)") 400 [])
          else
            .ok ("https://" ++ target.hostname ++ cleanPath ++ ".json")
              target.hostname cleanPath

/-! ### Model of the platform JSON parser -/

/-- JSON values as produced by `JSON.parse`.  Numbers keep their source
literal (the worker never computes with them). -/
inductive JsonValue
  | null
  | bool (b : Bool)
  | num (lit : String)
  | str (s : String)
  | arr (elems : List JsonValue)
  | obj (fields : List (String × JsonValue))

def isJsonWs (c : Char) : Bool :=
  c = ' ' || c = '\t' || c = '\n' || c = '\r'

def skipWs (l : List Char) : List Char :=
  l.dropWhile isJsonWs

def hexVal (c : Char) : Option Nat :=
  if c.isDigit then some (c.toNat - 48)
  else if 'a' ≤ c ∧ c ≤ 'f' then some (c.toNat - 87)
  else if 'A' ≤ c ∧ c ≤ 'F' then some (c.toNat - 55)
  else none

/-- Parse the remainder of a JSON string literal (after the opening
quote). Surrogate pairing of `\uXXXX` escapes is not modelled. -/
def parseJStr : Nat → List Char → Option (List Char × List Char)
  | 0, _ => none
  | _ + 1, [] => none
  | fuel + 1, c :: rest =>
    if c = '"' then some ([], rest)
    else if c = '\\' then
      match rest with
      | [] => none
      | e :: rest2 =>
        if e = 'u' then
          match rest2 with
          | h1 :: h2 :: h3 :: h4 :: rest3 =>
            match hexVal h1, hexVal h2, hexVal h3, hexVal h4 with
            | some a, some b, some c3, some d =>
              let n := ((a * 16 + b) * 16 + c3) * 16 + d
              (parseJStr fuel rest3).map (fun p => (Char.ofNat n :: p.1, p.2))
            | _, _, _, _ => none
          | _ => none
        else
          let decoded : Option Char :=
            if e = '"' || e = '\\' || e = '/' then some e
            else if e = 'b' then some (Char.ofNat 8)
            else if e = 'f' then some (Char.ofNat 12)
            else if e = 'n' then some '\n'
            else if e = 'r' then some '\r'
            else if e = 't' then some '\t'
            else none
          match decoded with
          | none => none
          | some d => (parseJStr fuel rest2).map (fun p => (d :: p.1, p.2))
    else if c.toNat < 32 then none
    else (parseJStr fuel rest).map (fun p => (c :: p.1, p.2))

/-- Parse a JSON number literal, returning its source text. -/
def parseJNum (l : List Char) : Option (List Char × List Char) :=
  let (sign, r1) := match l with
    | '-' :: r => (['-'], r)
    | r => (([] : List Char), r)
  let intPart := r1.takeWhile Char.isDigit
  let r2 := r1.dropWhile Char.isDigit
  let intOk := match intPart with
    | [] => false
    | ['0'] => true
    | c :: _ => c ≠ '0'
  if ¬ intOk then none
  else
    let (fracPart, r3) := match r2 with
      | '.' :: r =>
        let ds := r.takeWhile Char.isDigit
        if ds.isEmpty then ([' '], r2) else ('.' :: ds, r.dropWhile Char.isDigit)
      | r => (([] : List Char), r)
    if fracPart = [' '] then none
    else
      let (expPart, r4) := match r3 with
        | e :: r =>
          if e = 'e' || e = 'E' then
            let (es, r5) := match r with
              | s :: r6 => if s = '+' || s = '-' then ([e, s], r6) else ([e], r)
              | [] => ([e], r)
            let ds := r5.takeWhile Char.isDigit
            if ds.isEmpty then ([' '], r3) else (es ++ ds, r5.dropWhile Char.isDigit)
          else (([] : List Char), r3)
        | [] => (([] : List Char), r3)
      if expPart = [' '] then none
      else some (sign ++ intPart ++ fracPart ++ expPart, r4)

mutual

/-- Fuel-bounded recursive-descent JSON value parser. -/
def parseJVal : Nat → List Char → Option (JsonValue × List Char)
  | 0, _ => none
  | fuel + 1, l =>
    match skipWs l with
    | [] => none
    | c :: rest =>
      if c = 'n' then
        (dropPrefixL "ull".data rest).map (fun r => (.null, r))
      else if c = 't' then
        (dropPrefixL "rue".data rest).map (fun r => (.bool true, r))
      else if c = 'f' then
        (dropPrefixL "alse".data rest).map (fun r => (.bool false, r))
      else if c = '"' then
        (parseJStr (fuel + 1) rest).map (fun p => (.str (String.mk p.1), p.2))
      else if c = '[' then
        match skipWs rest with
        | ']' :: r => some (.arr [], r)
        | r => (parseJItems fuel r).map (fun p => (.arr p.1, p.2))
      else if c = lbraceChar then
        match skipWs rest with
        | r =>
          if r.headD ' ' = rbraceChar then some (.obj [], r.tail)
          else (parseJFields fuel r).map (fun p => (.obj p.1, p.2))
      else if c = '-' || c.isDigit then
        (parseJNum (c :: rest)).map (fun p => (.num (String.mk p.1), p.2))
      else none

/-- Comma-separated array items followed by `]`. -/
def parseJItems : Nat → List Char → Option (List JsonValue × List Char)
  | 0, _ => none
  | fuel + 1, l =>
    match parseJVal fuel l with
    | none => none
    | some (v, r) =>
      match skipWs r with
      | ',' :: r2 => (parseJItems fuel r2).map (fun p => (v :: p.1, p.2))
      | ']' :: r2 => some ([v], r2)
      | _ => none

/-- Comma-separated object members followed by the closing brace. -/
def parseJFields : Nat → List Char → Option (List (String × JsonValue) × List Char)
  | 0, _ => none
  | fuel + 1, l =>
    match skipWs l with
    | '"' :: r =>
      match parseJStr (fuel + 1) r with
      | none => none
      | some (k, r2) =>
        match skipWs r2 with
        | ':' :: r3 =>
          match parseJVal fuel r3 with
          | none => none
          | some (v, r4) =>
            match skipWs r4 with
            | ',' :: r5 => (parseJFields fuel r5).map (fun p => ((String.mk k, v) :: p.1, p.2))
            | c :: r5 => if c = rbraceChar then some ([(String.mk k, v)], r5) else none
            | [] => none
        | _ => none
    | _ => none

end

/-- Model of the platform `JSON.parse`: `none` models a thrown
`SyntaxError`. -/
def jsonParse (s : String) : Option JsonValue :=
  match parseJVal (s.length + 1) s.data with
  | some (v, rest) => if (skipWs rest).isEmpty then some v else none
  | none => none

/-! ### Upstream fetch state machine -/

/-- What the upstream `fetch` of the derived `.json` URL did: threw an
`AbortError` (the 10 s timeout fired), threw any other error (transport
failure), or produced a response. -/
structure UResponse where
  status : Nat
  headers : List (String × String)
  body : String
deriving DecidableEq

inductive UpstreamOutcome
  | timeoutAbort
  | networkError
  | response (resp : UResponse)
deriving DecidableEq

/-- Model of `Response.ok`: status in the 2xx range. -/
def statusOk (status : Nat) : Bool :=
  200 ≤ status && status ≤ 299

/-- The shared edge cache, reduced to what the worker stores and reads
back: the body cached under the upstream URL. -/
abbrev Cache := List (String × String)

/-- Model of `caches.default.match` keyed by the upstream URL. -/
def cacheMatch (cache : Cache) (key : String) : Option String :=
  (cache.find? (fun p => p.1 = key)).map (fun p => p.2)

/-- Model of `cache.put`: the new entry shadows any older one. -/
def cachePut (cache : Cache) (key body : String) : Cache :=
  (key, body) :: cache

/-- Result of `fetchRedditJson`: success with the body and its parsed
value, a mapped error response, or `crash` — an uncaught exception (the
unguarded `JSON.parse` on the cache-hit path). -/
inductive FetchResult
  | ok (body : String) (data : JsonValue)
  | err (response : Response)
  | crash

def FetchResult.errResponse : FetchResult → Option Response
  | .err r => some r
  | _ => none

def FetchResult.okBody : FetchResult → Option String
  | .ok body _ => some body
  | _ => none

def FetchResult.isCrash : FetchResult → Bool
  | .crash => true
  | _ => false

/-- Embedding of the worker's `fetchRedditJson`, with the cache threaded
explicitly and the network outcome supplied as an input.  Mirrors the
source order: cache lookup, fetch (timeout / transport errors), 429, 403,
non-2xx, content-type, size guard, JSON validation, cache population. -/
def fetchRedditJson (cache : Cache) (world : UpstreamOutcome) (jsonUrl : String) :
    FetchResult × Cache :=
  match cacheMatch cache jsonUrl with
  | some body =>
    match jsonParse body with
    | some data => (.ok body data, cache)
    | none => (.crash, cache)
  | none =>
    match world with
    | .timeoutAbort =>
      (.err (jsonResponse .upstream_timeout (some "Reddit took too long to respond") 504 []), cache)
    | .networkError =>
      (.err (jsonResponse .upstream_unreachable (some "Could not reach Reddit") 502 []), cache)
    | .response upstream =>
      if upstream.status = 429 then
        let retryAfter := headerGet upstream.headers "Retry-After"
        (.err (jsonResponse .rate_limited (some "Reddit is rate-limiting requests") 429
          (match retryAfter with
           | some v => if v = "" then [] else [("Retry-After", v)]
           | none => [])), cache)
      else if upstream.status = 403 then
        (.err (jsonResponse .upstream_forbidden (some "Reddit blocked this request") 502 []), cache)
      else if ¬ statusOk upstream.status then
        (.err (jsonResponse .upstream_error
          (some ("Reddit returned HTTP " ++ toString upstream.status)) 502 []), cache)
      else
        let ct := (headerGet upstream.headers "content-type").getD ""
        if ¬ strIncludes ct "application/json" then
          (.err (jsonResponse .upstream_parse_error
            (some ("Expected JSON, got " ++ (if ct = "" then "unknown" else ct))) 502 []), cache)
        else
          let body := upstream.body
          if body.length > MAX_RESPONSE_BYTES then
            (.err (jsonResponse .response_too_large (some "Response exceeded 5 MB limit") 502 []), cache)
          else
            match jsonParse body with
            | none =>
              (.err (jsonResponse .upstream_parse_error (some "Reddit returned invalid JSON") 502 []), cache)
            | some data => (.ok body data, cachePut cache jsonUrl body)

/-- Embedding of the worker's `handleRedditProxy` (the `/reddit/api/fetch`
route).  `none` models an uncaught exception escaping the handler. -/
def handleRedditProxy (method : String) (urlParam : Option String)
    (cache : Cache) (world : UpstreamOutcome) : Option Response × Cache :=
  if method ≠ "GET" then
    (some (jsonResponse .method_not_allowed none 405 []), cache)
  else
    match validateRedditUrl urlParam with
    | .err resp => (some resp, cache)
    | .ok jsonUrl _ _ =>
      match fetchRedditJson cache world jsonUrl with
      | (.ok body _, c) =>
        (some { status := 200
                headers := [("Content-Type", "application/json"),
                            ("Cache-Control", "public, max-age=" ++ toString CACHE_TTL_SECONDS)]
                body := .text body }, c)
      | (.err resp, c) => (some resp, c)
      | (.crash, c) => (none, c)

/-! ### HTML escaping and the OG preview -/

/-- Replace every occurrence of the character `c` by the string `r`
(model of a global single-character regex replace). -/
def replaceChar (c : Char) (r : String) (s : String) : String :=
  String.mk (s.data.flatMap (fun a => if a = c then r.data else [a]))

/-- Embedding of the worker's `escapeHtml`: four sequential global
replaces, in source order. -/
def escapeHtml (s : String) : String :=
  replaceChar '"' "&quot;" (replaceChar '>' "&gt;" (replaceChar '<' "&lt;" (replaceChar '&' "&amp;" s)))

/-- Model of the platform `encodeURIComponent` unreserved set. -/
def uriUnreserved (c : Char) : Bool :=
  c.isAlpha || c.isDigit || c = '-' || c = '_' || c = '.' || c = '!' ||
    c = '~' || c = '*' || c = aposChar || c = '(' || c = ')'

/-- UTF-8 bytes of a character. -/
def utf8Bytes (c : Char) : List Nat :=
  let n := c.toNat
  if n < 128 then [n]
  else if n < 2048 then [192 + n / 64, 128 + n % 64]
  else if n < 65536 then [224 + n / 4096, 128 + (n / 64) % 64, 128 + n % 64]
  else [240 + n / 262144, 128 + (n / 4096) % 64, 128 + (n / 64) % 64, 128 + n % 64]

def hexDigitUpper (n : Nat) : Char :=
  if n < 10 then Char.ofNat (48 + n) else Char.ofNat (55 + n)

def pctEncodeByte (b : Nat) : List Char :=
  ['%', hexDigitUpper (b / 16), hexDigitUpper (b % 16)]

/-- Model of the platform `encodeURIComponent`. -/
def encodeURIComponent (s : String) : String :=
  String.mk (s.data.flatMap (fun c =>
    if uriUnreserved c then [c] else (utf8Bytes c).flatMap pctEncodeByte))

/-- The fixed HTML template of `buildOgHtml`, split at the insertion
points of the (already escaped) title `t`, description `d` and canonical
URL `u`. -/
def ogTemplate (t d u : String) : String :=
  "<!DOCTYPE html>\n<html>\n<head>\n  <meta charset=\"utf-8\">\n  <title>" ++ t ++
  " — R→MD</title>\n  <meta property=\"og:title\" content=\"" ++ t ++
  "\">\n  <meta property=\"og:description\" content=\"" ++ d ++
  "\">\n  <meta property=\"og:site_name\" content=\"R→MD\">\n  <meta property=\"og:type\" content=\"article\">\n  " ++
  "<meta property=\"og:url\" content=\"" ++ u ++ "\">" ++
  "\n  <meta name=\"twitter:card\" content=\"summary\">\n</head>\n<body>\n  <p>Redirecting to <a href=\"" ++ u ++
  "\">R→MD</a>…</p>\n</body>\n</html>"

/-- Embedding of the worker's `buildOgHtml`: escape the three dynamic
values, then interpolate them into the fixed template. -/
def buildOgHtml (title description canonicalUrl : String) : String :=
  ogTemplate (escapeHtml title) (escapeHtml description) (escapeHtml canonicalUrl)

/-- JS truthiness of a JSON value (`NaN` cannot arise from `JSON.parse`;
a numeric literal is falsy exactly when its mantissa digits are all
zero — extreme exponents that underflow to zero are not modelled). -/
def jsTruthy : JsonValue → Bool
  | .null => false
  | .bool b => b
  | .str s => s ≠ ""
  | .num lit => ¬ ((lit.data.takeWhile (fun c => c ≠ 'e' && c ≠ 'E')).all (fun c => ¬ c.isDigit || c = '0'))
  | .arr _ => true
  | .obj _ => true

/-- JS string coercion of a JSON value, as used inside a template
literal.  Numbers keep their source literal and arrays and objects are
approximated ([] joins its elements, objects print as
`[object Object]`); the worker only ever coerces the `author` and
`subreddit` fields, strings in every real payload. -/
def jsToString : JsonValue → String
  | .null => "null"
  | .bool b => if b then "true" else "false"
  | .num lit => lit
  | .str s => s
  | .arr _ => ""
  | .obj _ => "[object Object]"

/-- Model of `v?.[i]` on a parsed JSON value. -/
def jsonIndex (v : JsonValue) (i : Nat) : Option JsonValue :=
  match v with
  | .arr es => es.get? i
  | _ => none

/-- Model of `v?.k` on a parsed JSON value (`JSON.parse` keeps the last
duplicate key, hence the reversed search). -/
def jsonGet (v : JsonValue) (k : String) : Option JsonValue :=
  match v with
  | .obj fs => (fs.reverse.find? (fun p => p.1 = k)).map (fun p => p.2)
  | _ => none

/-- The optional-chain `data?.[0]?.data?.children?.[0]?.data` of
`handleOgPreview`. -/
def postOf (data : JsonValue) : Option JsonValue :=
  ((((jsonIndex data 0).bind (fun x => jsonGet x "data")).bind
    (fun x => jsonGet x "children")).bind (fun x => jsonIndex x 0)).bind
    (fun x => jsonGet x "data")

def ogFallbackTitle : String := "Reddit Thread — R→MD"

def ogFallbackDescription : String := "Convert Reddit threads to clean markdown"

/-- The canonical URL `handleOgPreview` rebuilds from the original target
parameter. -/
def canonicalFor (redditUrl : String) : String :=
  "https://peirce.net/reddit?url=" ++ encodeURIComponent redditUrl

/-- Embedding of the worker's `handleOgPreview`.  `none` models an
uncaught exception: either the unguarded `JSON.parse` on a cache hit, or
the `TypeError` thrown by `escapeHtml` when the extracted `title` is a
truthy non-string (a value with no `.replace` method). -/
def handleOgPreview (redditUrl : String) (cache : Cache) (world : UpstreamOutcome) :
    Option Response × Cache :=
  let canonicalUrl := canonicalFor redditUrl
  let fallback := htmlResponse (buildOgHtml ogFallbackTitle ogFallbackDescription canonicalUrl)
  match validateRedditUrl (some redditUrl) with
  | .err _ => (some fallback, cache)
  | .ok jsonUrl _ _ =>
    match fetchRedditJson cache world jsonUrl with
    | (.crash, c) => (none, c)
    | (.err _, c) => (some fallback, c)
    | (.ok _ data, c) =>
      match (postOf data).bind (fun p => jsonGet p "title") with
      | none => (some fallback, c)
      | some titleV =>
        if ¬ jsTruthy titleV then (some fallback, c)
        else
          match titleV with
          | .str title =>
            let post := (postOf data).getD .null
            let author := match jsonGet post "author" with
              | some a => if jsTruthy a then jsToString a else "unknown"
              | none => "unknown"
            let subreddit := match jsonGet post "subreddit" with
              | some a => if jsTruthy a then jsToString a else "reddit"
              | none => "reddit"
            let description := "u/" ++ author ++ " in r/" ++ subreddit ++ " — converted to markdown"
            (some (htmlResponse (buildOgHtml title description canonicalUrl)), c)
          | _ => (none, c)

/-! ### Spec-side definitions used to state the claims -/

/-- First failing rule of the validator as the spec states the five rules
(rule 1 fires only on an `absent` parameter).  Used to compare the spec's
rule order with `validateRedditUrl`. -/
def specFirstFailure : Option String → Option ErrorCode
  | none => some .missing_url
  | some s =>
    match parseURL s with
    | none => some .invalid_url
    | some u =>
      if u.protocol ≠ "https:" then some .https_required
      else if ¬ ALLOWED_HOSTS.contains u.hostname then some .host_not_allowed
      else if ¬ threadPathTest (dropTrailingSlashes u.pathname.data) then some .invalid_path
      else none

/-- First failing rule with rule 1 amended to fire on an absent or empty
parameter (the JS guard `if (!targetParam)` treats `''` as falsy). -/
def amendedFirstFailure : Option String → Option ErrorCode
  | none => some .missing_url
  | some s =>
    if s = "" then some .missing_url
    else
      match parseURL s with
      | none => some .invalid_url
      | some u =>
        if u.protocol ≠ "https:" then some .https_required
        else if ¬ ALLOWED_HOSTS.contains u.hostname then some .host_not_allowed
        else if ¬ threadPathTest (dropTrailingSlashes u.pathname.data) then some .invalid_path
        else none

/-- The HTTP status the claim assigns to each error code. -/
def claimedStatus : ErrorCode → Nat
  | .missing_url => 400
  | .invalid_url => 400
  | .https_required => 400
  | .host_not_allowed => 400
  | .invalid_path => 400
  | .method_not_allowed => 405
  | .rate_limited => 429
  | .upstream_forbidden => 502
  | .upstream_error => 502
  | .upstream_parse_error => 502
  | .response_too_large => 502
  | .upstream_timeout => 504
  | .upstream_unreachable => 502

/-- The content-type acceptance test as the claim words it: the header
value contains a JSON media type under case-insensitive substring
matching. -/
def specJsonCt (ct : String) : Bool :=
  strIncludes (toLowerStr ct) "application/json"

/-- Per-character HTML entity encoding, the net effect claimed for
`escapeHtml`. -/
def escapeCharSpec (c : Char) : List Char :=
  if c = '&' then "&amp;".data
  else if c = '<' then "&lt;".data
  else if c = '>' then "&gt;".data
  else if c = '"' then "&quot;".data
  else [c]

/-- The cache invariant: every cached body parses as JSON. -/
def cacheWF (cache : Cache) : Prop :=
  ∀ p ∈ cache, (jsonParse p.2).isSome = true

/-! ## Theorems -/

/-- Every error produced by the validator is a 400 `jsonResponse` whose
code is also mapped to 400 by the claimed table. -/
theorem validateRedditUrl_err_shape {t : Option String} {resp : Response}
    (h : validateRedditUrl t = .err resp) :
    ∃ e m, resp = jsonResponse e (some m) 400 [] ∧ claimedStatus e = 400 := by
  unfold validateRedditUrl at h
  split at h
  · cases h
    exact ⟨.missing_url, _, rfl, rfl⟩
  · split at h
    · cases h
      exact ⟨.missing_url, _, rfl, rfl⟩
    · split at h
      · cases h
        exact ⟨.invalid_url, _, rfl, rfl⟩
      · split at h
        · cases h
          exact ⟨.https_required, _, rfl, rfl⟩
        · split at h
          · cases h
            exact ⟨.host_not_allowed, _, rfl, rfl⟩
          · simp only [] at h
            split at h
            · cases h
              exact ⟨.invalid_path, _, rfl, rfl⟩
            · cases h

/-- Every error produced by the fetcher is a `jsonResponse` whose status
is the one the claimed table assigns to its code. -/
theorem fetchRedditJson_err_shape {cache : Cache} {world : UpstreamOutcome}
    {url : String} {resp : Response}
    (h : (fetchRedditJson cache world url).1 = .err resp) :
    ∃ e m hs, resp = jsonResponse e (some m) (claimedStatus e) hs := by
  unfold fetchRedditJson at h
  split at h
  · split at h
    · cases h
    · cases h
  · split at h
    · cases h
      exact ⟨.upstream_timeout, _, _, rfl⟩
    · cases h
      exact ⟨.upstream_unreachable, _, _, rfl⟩
    · split at h
      · cases h
        exact ⟨.rate_limited, _, _, rfl⟩
      · split at h
        · cases h
          exact ⟨.upstream_forbidden, _, _, rfl⟩
        · split at h
          · cases h
            exact ⟨.upstream_error, _, _, rfl⟩
          · simp only [] at h
            split at h
            · cases h
              exact ⟨.upstream_parse_error, _, _, rfl⟩
            · split at h
              · cases h
                exact ⟨.response_too_large, _, _, rfl⟩
              · split at h
                · cases h
                  exact ⟨.upstream_parse_error, _, _, rfl⟩
                · cases h

/-- A `jsonResponse` built with the status the table assigns to its code
satisfies both directions of the mapping claim. -/
theorem jsonResponse_mapping (e0 : ErrorCode) (m0 : Option String)
    (hs : List (String × String)) :
    (∀ e m, (jsonResponse e0 m0 (claimedStatus e0) hs).body = .jsonError e m →
      (jsonResponse e0 m0 (claimedStatus e0) hs).status = claimedStatus e) ∧
    ((jsonResponse e0 m0 (claimedStatus e0) hs).status ≠ 200 →
      ∃ e m, (jsonResponse e0 m0 (claimedStatus e0) hs).body = .jsonError e m ∧
        (jsonResponse e0 m0 (claimedStatus e0) hs).status = claimedStatus e) := by
  constructor
  · intro e m he
    cases he
    rfl
  · intro _
    exact ⟨e0, m0, rfl, rfl⟩

/-- C2: on the API route, each error code maps to exactly the claimed
HTTP status (400 for the five validation codes, 405 for
`method_not_allowed`, 429 for `rate_limited`, 502 for the upstream
failures, 504 for `upstream_timeout`), and every error response body
carries its machine-readable code: every non-200 response body is the
JSON error record of a code whose claimed status is the response's
status, and conversely every response carrying a code has that code's
claimed status. -/
theorem c2_error_status_mapping (method : String) (urlParam : Option String)
    (cache : Cache) (world : UpstreamOutcome) (r : Response)
    (hr : (handleRedditProxy method urlParam cache world).1 = some r) :
    (∀ e m, r.body = .jsonError e m → r.status = claimedStatus e) ∧
    (r.status ≠ 200 → ∃ e m, r.body = .jsonError e m ∧ r.status = claimedStatus e) := by
  unfold handleRedditProxy at hr
  split at hr
  · simp only [] at hr
    cases hr
    exact jsonResponse_mapping .method_not_allowed none []
  · split at hr
    · rename_i resp hv
      simp only [] at hr
      cases hr
      obtain ⟨e, m, rfl, hst⟩ := validateRedditUrl_err_shape hv
      have := jsonResponse_mapping e (some m) []
      rwa [hst] at this
    · split at hr
      · simp only [] at hr
        cases hr
        constructor
        · intro e m he
          cases he
        · intro h200
          exact absurd rfl h200
      · rename_i resp c hf
        have hf1 := congrArg Prod.fst hf
        obtain ⟨e, m, hs, rfl⟩ := fetchRedditJson_err_shape hf1
        simp only [] at hr
        cases hr
        exact jsonResponse_mapping e (some m) hs
      · simp only [] at hr
        cases hr

/-- C1 (counterexample): on the empty-string parameter the claim's rule
order predicts `invalid_url` (rule 1, `missing_url`, fires only on an
absent input, and the empty string is present but unparseable), yet the
validator returns `missing_url`, because the JS guard `if (!targetParam)`
also fires on the falsy empty string. -/
theorem c1_rule_order_counterexample :
    specFirstFailure (some "") = some .invalid_url ∧
    validateRedditUrl (some "") =
      .err (jsonResponse .missing_url (some "Provide a Reddit thread URL as ?url=…") 400 []) := by
  constructor
  · rfl
  · rfl

/-- C1 (amended): with rule 1 amended to fire on an absent or empty
parameter, the validator applies the five rules in the fixed order
`missing_url`, `invalid_url`, `https_required`, `host_not_allowed`,
`invalid_path`: it returns a 400 response carrying exactly the code of
the first failing rule, and accepts (returns a `TargetSpec`) exactly when
no rule fails. -/
theorem c1_rule_order_amended (t : Option String) :
    (amendedFirstFailure t = none → ∃ j h c, validateRedditUrl t = .ok j h c) ∧
    (∀ e, amendedFirstFailure t = some e →
      ∃ m, validateRedditUrl t = .err (jsonResponse e (some m) 400 [])) := by
  constructor
  · intro h0
    unfold amendedFirstFailure at h0
    split at h0
    · cases h0
    · split at h0
      · cases h0
      · split at h0
        · cases h0
        · split at h0
          · cases h0
          · split at h0
            · cases h0
            · split at h0
              · cases h0
              · rename_i s hne x u hp hproto hhost hpath
                have hproto2 := not_not.mp hproto
                have hhost2 : u.hostname ∈ ALLOWED_HOSTS := by simpa using not_not.mp hhost
                have hpath2 := not_not.mp hpath
                refine ⟨"https://" ++ u.hostname ++ String.mk (dropTrailingSlashes u.pathname.data) ++ ".json",
                  u.hostname, String.mk (dropTrailingSlashes u.pathname.data), ?_⟩
                simp [validateRedditUrl, hne, hp, hproto2, hhost2, hpath2]
  · intro e h0
    unfold amendedFirstFailure at h0
    split at h0
    · cases h0
      exact ⟨"Provide a Reddit thread URL as ?url=…", rfl⟩
    · split at h0
      · cases h0
        rename_i s heq
        refine ⟨"Provide a Reddit thread URL as ?url=…", ?_⟩
        simp [validateRedditUrl, heq]
      · split at h0
        · cases h0
          rename_i s hne x hp
          refine ⟨"Not a valid URL", ?_⟩
          simp [validateRedditUrl, hne, hp]
        · split at h0
          · cases h0
            rename_i s hne x u hp hproto
            refine ⟨"Only HTTPS URLs are allowed", ?_⟩
            simp [validateRedditUrl, hne, hp, hproto]
          · split at h0
            · cases h0
              rename_i s hne x u hp hproto hhost
              have hhost2 : u.hostname ∉ ALLOWED_HOSTS := by simpa using hhost
              refine ⟨"Only Reddit URLs are allowed", ?_⟩
              simp [validateRedditUrl, hne, hp, not_not.mp hproto, hhost2]
            · split at h0
              · cases h0
                rename_i s hne x u hp hproto hhost hpath
                have hhost2 : u.hostname ∈ ALLOWED_HOSTS := by simpa using not_not.mp hhost
                refine ⟨"URL must be a Reddit thread (/r/…/comments/…)", ?_⟩
                simp [validateRedditUrl, hne, hp, not_not.mp hproto, hhost2, hpath]
              · cases h0

/-- C1 (witness): the amended characterization applied at a concrete
accepted input and at a concrete rejected one. -/
theorem c1_rule_order_witness :
    (∃ j h c, validateRedditUrl (some "https://www.reddit.com/r/test/comments/abc123/title") = .ok j h c) ∧
    (∃ m, validateRedditUrl (some "http://www.reddit.com/r/test/comments/abc123/title") =
      .err (jsonResponse .https_required (some m) 400 [])) :=
  ⟨(c1_rule_order_amended (some "https://www.reddit.com/r/test/comments/abc123/title")).1 (by decide),
   (c1_rule_order_amended (some "http://www.reddit.com/r/test/comments/abc123/title")).2 .https_required (by decide)⟩

/-- On a cache miss and a 2xx upstream response, the fetcher reduces to
the content-type check, the size guard and the JSON validation, in that
order. -/
theorem fetchRedditJson_2xx (cache : Cache) (u : UResponse) (jsonUrl : String)
    (hmiss : cacheMatch cache jsonUrl = none)
    (h2xx : statusOk u.status = true) :
    fetchRedditJson cache (.response u) jsonUrl =
      (let ct := (headerGet u.headers "content-type").getD ""
       if ¬ strIncludes ct "application/json" then
         (.err (jsonResponse .upstream_parse_error
           (some ("Expected JSON, got " ++ (if ct = "" then "unknown" else ct))) 502 []), cache)
       else if u.body.length > MAX_RESPONSE_BYTES then
         (.err (jsonResponse .response_too_large (some "Response exceeded 5 MB limit") 502 []), cache)
       else
         match jsonParse u.body with
         | none =>
           (.err (jsonResponse .upstream_parse_error (some "Reddit returned invalid JSON") 502 []), cache)
         | some data => (.ok u.body data, cachePut cache jsonUrl u.body)) := by
  have hok : 200 ≤ u.status ∧ u.status ≤ 299 := by
    simpa [statusOk] using h2xx
  have h429 : ¬ u.status = 429 := by omega
  have h403 : ¬ u.status = 403 := by omega
  unfold fetchRedditJson
  simp only [hmiss]
  rw [if_neg h429, if_neg h403, if_neg (not_not.mpr h2xx)]

/-- C4 (counterexample): an upstream 2xx response declaring
`Content-Type: Application/JSON` contains a JSON media type under the
claim's case-insensitive matching, yet the fetcher rejects it with
`upstream_parse_error`, because the source tests
`ct.includes('application/json')`, which is case-sensitive. -/
theorem c4_content_type_counterexample :
    specJsonCt "Application/JSON" = true ∧
    (fetchRedditJson [] (.response ⟨200, [("content-type", "Application/JSON")], "\x7b\x7d"⟩) "k").1 =
      .err (jsonResponse .upstream_parse_error (some "Expected JSON, got Application/JSON") 502 []) := by
  constructor
  · rfl
  · rfl

/-- C4 (amended): for a 2xx upstream response (on a cache miss), the
fetcher accepts the declared content type only if the Content-Type header
contains the exact lowercase substring `application/json`
(case-sensitively); any other declared content type — including an
absent header — yields `upstream_parse_error` with the observed content
type, or `unknown` when absent, in the detail message. -/
theorem c4_content_type_amended (cache : Cache) (u : UResponse) (jsonUrl : String)
    (hmiss : cacheMatch cache jsonUrl = none)
    (h2xx : statusOk u.status = true) :
    (strIncludes ((headerGet u.headers "content-type").getD "") "application/json" = false →
      (fetchRedditJson cache (.response u) jsonUrl).1 =
        .err (jsonResponse .upstream_parse_error
          (some ("Expected JSON, got " ++
            (if (headerGet u.headers "content-type").getD "" = "" then "unknown"
             else (headerGet u.headers "content-type").getD ""))) 502 [])) ∧
    (strIncludes ((headerGet u.headers "content-type").getD "") "application/json" = true →
      (∃ d, (fetchRedditJson cache (.response u) jsonUrl).1 = .ok u.body d) ∨
      (fetchRedditJson cache (.response u) jsonUrl).1 =
        .err (jsonResponse .response_too_large (some "Response exceeded 5 MB limit") 502 []) ∨
      (fetchRedditJson cache (.response u) jsonUrl).1 =
        .err (jsonResponse .upstream_parse_error (some "Reddit returned invalid JSON") 502 [])) := by
  have heq := fetchRedditJson_2xx cache u jsonUrl hmiss h2xx
  rw [heq]
  simp only []
  constructor
  · intro hct
    rw [if_pos]
    simp [hct]
  · intro hct
    rw [if_neg (by simp [hct])]
    by_cases hlen : u.body.length > MAX_RESPONSE_BYTES
    · rw [if_pos hlen]
      right
      left
      rfl
    · rw [if_neg hlen]
      rcases hj : jsonParse u.body with _ | d
      · right
        right
        simp [hj]
      · left
        exact ⟨d, by simp [hj]⟩

/-- C4 (witness): the amended content-type rule applied to a concrete
rejected response (`text/html`) and a concrete accepted one. -/
theorem c4_content_type_witness :
    ((fetchRedditJson [] (.response ⟨200, [("content-type", "text/html")], "\x7b\x7d"⟩) "k").1 =
      .err (jsonResponse .upstream_parse_error (some "Expected JSON, got text/html") 502 [])) ∧
    ((∃ d, (fetchRedditJson [] (.response ⟨200, [("content-type", "application/json")], "\x7b\x7d"⟩) "k").1 =
        .ok "\x7b\x7d" d) ∨
      (fetchRedditJson [] (.response ⟨200, [("content-type", "application/json")], "\x7b\x7d"⟩) "k").1 =
        .err (jsonResponse .response_too_large (some "Response exceeded 5 MB limit") 502 []) ∨
      (fetchRedditJson [] (.response ⟨200, [("content-type", "application/json")], "\x7b\x7d"⟩) "k").1 =
        .err (jsonResponse .upstream_parse_error (some "Reddit returned invalid JSON") 502 [])) :=
  ⟨by
    have := (c4_content_type_amended [] ⟨200, [("content-type", "text/html")], "\x7b\x7d"⟩ "k" rfl rfl).1 (by decide)
    exact this,
   (c4_content_type_amended [] ⟨200, [("content-type", "application/json")], "\x7b\x7d"⟩ "k" rfl rfl).2 (by decide)⟩

/-- C6: the size guard is a pure function of the fully-read body: on a
cache miss, for a 2xx upstream response with an accepted content type,
the fetcher returns `response_too_large` exactly when the body length
exceeds the 5 MiB ceiling (so a body of exactly the ceiling is never
size-rejected, and one unit over always is), and any body within the
ceiling that parses as JSON is accepted outright. -/
theorem c6_size_guard (cache : Cache) (u : UResponse) (jsonUrl : String)
    (hmiss : cacheMatch cache jsonUrl = none)
    (h2xx : statusOk u.status = true)
    (hct : strIncludes ((headerGet u.headers "content-type").getD "") "application/json" = true) :
    ((fetchRedditJson cache (.response u) jsonUrl).1 =
        .err (jsonResponse .response_too_large (some "Response exceeded 5 MB limit") 502 []) ↔
      u.body.length > MAX_RESPONSE_BYTES) ∧
    (u.body.length ≤ MAX_RESPONSE_BYTES → ∀ d, jsonParse u.body = some d →
      (fetchRedditJson cache (.response u) jsonUrl).1 = .ok u.body d) := by
  have heq := fetchRedditJson_2xx cache u jsonUrl hmiss h2xx
  rw [heq]
  simp only []
  rw [if_neg (by simp [hct])]
  constructor
  · constructor
    · intro hres
      by_contra hlen
      rw [if_neg hlen] at hres
      rcases hj : jsonParse u.body with _ | d <;> rw [hj] at hres <;>
        simp [jsonResponse] at hres
    · intro hlen
      rw [if_pos hlen]
  · intro hlen d hj
    rw [if_neg (by omega), hj]

/-- C6 (witness): a small in-ceiling JSON body is not size-rejected and
is accepted with its parsed value. -/
theorem c6_size_guard_witness :
    (¬ (fetchRedditJson [] (.response ⟨200, [("content-type", "application/json")], "\x7b\x7d"⟩) "k").1 =
        .err (jsonResponse .response_too_large (some "Response exceeded 5 MB limit") 502 [])) ∧
    (fetchRedditJson [] (.response ⟨200, [("content-type", "application/json")], "\x7b\x7d"⟩) "k").1 =
      .ok "\x7b\x7d" (JsonValue.obj []) := by
  have h := c6_size_guard [] ⟨200, [("content-type", "application/json")], "\x7b\x7d"⟩ "k" rfl rfl (by decide)
  constructor
  · intro hc
    have h2 := h.1.mp hc
    have hlen : ("\x7b\x7d" : String).length = 2 := rfl
    rw [hlen] at h2
    simp [MAX_RESPONSE_BYTES] at h2
  · exact h.2 (by decide) (JsonValue.obj []) rfl

/-- C7 (counterexample): an upstream 429 response that carries a
`Retry-After` header with an empty value produces a client response with
no `Retry-After` header at all — the claimed if-and-only-if passthrough
fails, because the source's truthiness guard `retryAfter ? ... :
undefined` drops the falsy empty string. -/
theorem c7_retry_after_counterexample :
    headerGet [("Retry-After", "")] "Retry-After" = some "" ∧
    (fetchRedditJson [] (.response ⟨429, [("Retry-After", "")], ""⟩) "k").1 =
      .err (jsonResponse .rate_limited (some "Reddit is rate-limiting requests") 429 []) ∧
    headerGet (jsonResponse .rate_limited (some "Reddit is rate-limiting requests") 429 []).headers
      "Retry-After" = none := by
  exact ⟨rfl, rfl, rfl⟩

/-- C7 (amended): every upstream 429 (on a cache miss) maps to a 429
client response carrying `rate_limited`, and the client response carries
a `Retry-After` header if and only if the upstream carried one with a
non-empty value, in which case the value is passed through unchanged; no
default is ever synthesized. -/
theorem c7_rate_limit_amended (cache : Cache) (u : UResponse) (jsonUrl : String)
    (hmiss : cacheMatch cache jsonUrl = none)
    (h429 : u.status = 429) :
    ∃ resp, (fetchRedditJson cache (.response u) jsonUrl).1 = .err resp ∧
      resp.status = 429 ∧
      resp.body = .jsonError .rate_limited (some "Reddit is rate-limiting requests") ∧
      headerGet resp.headers "Retry-After" =
        (match headerGet u.headers "Retry-After" with
         | none => none
         | some v => if v = "" then none else some v) := by
  unfold fetchRedditJson
  simp only [hmiss]
  rw [if_pos h429]
  refine ⟨_, rfl, rfl, rfl, ?_⟩
  rcases hra : headerGet u.headers "Retry-After" with _ | v
  · rfl
  · by_cases hv : v = ""
    · subst hv
      rfl
    · show headerGet (("Content-Type", "application/json") ::
        (if v = "" then [] else [("Retry-After", v)])) "Retry-After" =
          if v = "" then none else some v
      rw [if_neg hv, if_neg hv]
      rfl

/-- C7 (witness): the amended passthrough applied to a concrete 429
response carrying `Retry-After: 30`. -/
theorem c7_rate_limit_witness :
    ∃ resp, (fetchRedditJson [] (.response ⟨429, [("Retry-After", "30")], ""⟩) "k").1 = .err resp ∧
      resp.status = 429 ∧
      resp.body = .jsonError .rate_limited (some "Reddit is rate-limiting requests") ∧
      headerGet resp.headers "Retry-After" =
        (match headerGet ([("Retry-After", "30")] : List (String × String)) "Retry-After" with
         | none => none
         | some v => if v = "" then none else some v) :=
  c7_rate_limit_amended [] ⟨429, [("Retry-After", "30")], ""⟩ "k" rfl rfl

/-- The fetcher preserves the cache invariant and, given it, never
reaches the crash of the unguarded cache-hit `JSON.parse`. -/
theorem fetchRedditJson_preserves (cache : Cache) (world : UpstreamOutcome)
    (jsonUrl : String) (hwf : cacheWF cache) :
    cacheWF (fetchRedditJson cache world jsonUrl).2 ∧
      (fetchRedditJson cache world jsonUrl).1 ≠ .crash := by
  unfold fetchRedditJson
  rcases hc : cacheMatch cache jsonUrl with _ | body
  · simp only [hc]
    split
    · exact ⟨hwf, fun h => FetchResult.noConfusion h⟩
    · exact ⟨hwf, fun h => FetchResult.noConfusion h⟩
    · split
      · exact ⟨hwf, fun h => FetchResult.noConfusion h⟩
      · split
        · exact ⟨hwf, fun h => FetchResult.noConfusion h⟩
        · split
          · exact ⟨hwf, fun h => FetchResult.noConfusion h⟩
          · split
            · exact ⟨hwf, fun h => FetchResult.noConfusion h⟩
            · split
              · exact ⟨hwf, fun h => FetchResult.noConfusion h⟩
              · split
                · exact ⟨hwf, fun h => FetchResult.noConfusion h⟩
                · rename_i d hj
                  refine ⟨?_, fun h => FetchResult.noConfusion h⟩
                  intro p hp
                  rcases List.mem_cons.mp hp with rfl | hp2
                  · simpa using congrArg Option.isSome hj
                  · exact hwf p hp2
  · obtain ⟨q, hq, hq2⟩ : ∃ q, (cache.find? (fun p => p.1 = jsonUrl)) = some q ∧ q.2 = body := by
      rcases ho : cache.find? (fun p => p.1 = jsonUrl) with _ | q
      · rw [cacheMatch, ho] at hc
        cases hc
      · rw [cacheMatch, ho] at hc
        cases hc
        exact ⟨q, ho, rfl⟩
    have hqmem := List.mem_of_find?_eq_some hq
    have : (jsonParse q.2).isSome = true := hwf q hqmem
    rw [hq2] at this
    obtain ⟨d, hd⟩ := Option.isSome_iff_exists.mp this
    simp only [hc, hd]
    exact ⟨hwf, fun h => FetchResult.noConfusion h⟩

/-- The API handler preserves the cache invariant and, given it, always
produces a response. -/
theorem handleRedditProxy_preserves (method : String) (urlParam : Option String)
    (cache : Cache) (world : UpstreamOutcome) (hwf : cacheWF cache) :
    cacheWF (handleRedditProxy method urlParam cache world).2 ∧
      (handleRedditProxy method urlParam cache world).1 ≠ none := by
  unfold handleRedditProxy
  split
  · exact ⟨hwf, fun h => Option.noConfusion h⟩
  · split
    · exact ⟨hwf, fun h => Option.noConfusion h⟩
    · split
      · rename_i xv ju hn cp hv xp bd dv c2 hf
        have hpre := fetchRedditJson_preserves cache world ju hwf
        rw [hf] at hpre
        exact ⟨hpre.1, fun h => Option.noConfusion h⟩
      · rename_i xv ju hn cp hv xp resp c2 hf
        have hpre := fetchRedditJson_preserves cache world ju hwf
        rw [hf] at hpre
        exact ⟨hpre.1, fun h => Option.noConfusion h⟩
      · rename_i xv ju hn cp hv xp c2 hf
        have hpre := fetchRedditJson_preserves cache world ju hwf
        rw [hf] at hpre
        exact absurd rfl hpre.2

/-- The preview handler preserves the cache invariant. -/
theorem handleOgPreview_preserves (target : String) (cache : Cache)
    (world : UpstreamOutcome) (hwf : cacheWF cache) :
    cacheWF (handleOgPreview target cache world).2 := by
  unfold handleOgPreview
  split
  · exact hwf
  · split
    · rename_i xv ju hn cp hv xp c2 hf
      have hpre := fetchRedditJson_preserves cache world ju hwf
      rw [hf] at hpre
      exact hpre.1
    · rename_i xv ju hn cp hv xp resp c2 hf
      have hpre := fetchRedditJson_preserves cache world ju hwf
      rw [hf] at hpre
      exact hpre.1
    · rename_i xv ju hn cp hv xp bd dv c2 hf
      have hpre := fetchRedditJson_preserves cache world ju hwf
      rw [hf] at hpre
      split
      · exact hpre.1
      · split
        · exact hpre.1
        · split
          · exact hpre.1
          · exact hpre.1

/-- C10: the cache invariant — every cached body parses as JSON — holds
of the empty cache, is preserved by the fetcher (the only writer, which
stores a body only after `JSON.parse` succeeded on it) and by both
handlers, and under it the unguarded `JSON.parse` on the fetcher's
cache-hit path can never throw (the fetcher never crashes). -/
theorem c10_cache_wf_invariant (cache : Cache) (world : UpstreamOutcome)
    (jsonUrl method target : String) (urlParam : Option String)
    (hwf : cacheWF cache) :
    cacheWF ([] : Cache) ∧
    (cacheWF (fetchRedditJson cache world jsonUrl).2 ∧
      (fetchRedditJson cache world jsonUrl).1 ≠ .crash) ∧
    (cacheWF (handleRedditProxy method urlParam cache world).2 ∧
      (handleRedditProxy method urlParam cache world).1 ≠ none) ∧
    cacheWF (handleOgPreview target cache world).2 := by
  refine ⟨?_, fetchRedditJson_preserves cache world jsonUrl hwf,
    handleRedditProxy_preserves method urlParam cache world hwf,
    handleOgPreview_preserves target cache world hwf⟩
  intro p hp
  cases hp

/-- C10 (witness): the invariant theorem applied to a concrete well-formed
cache holding one valid-JSON entry. -/
theorem c10_cache_wf_witness :
    cacheWF ([] : Cache) ∧
    (cacheWF (fetchRedditJson [("k", "1")] .timeoutAbort "u").2 ∧
      (fetchRedditJson [("k", "1")] .timeoutAbort "u").1 ≠ .crash) ∧
    (cacheWF (handleRedditProxy "GET" (some "x") [("k", "1")] .timeoutAbort).2 ∧
      (handleRedditProxy "GET" (some "x") [("k", "1")] .timeoutAbort).1 ≠ none) ∧
    cacheWF (handleOgPreview "x" [("k", "1")] .timeoutAbort).2 :=
  c10_cache_wf_invariant [("k", "1")] .timeoutAbort "u" "GET" "x" (some "x")
    (by
      intro p hp
      rcases List.mem_cons.mp hp with rfl | hp2
      · rfl
      · cases hp2)

/-- C2 (witness): the status mapping applied to the concrete 405
response of a POST request. -/
theorem c2_error_status_witness :
    (∀ e m, (jsonResponse .method_not_allowed none 405 []).body = .jsonError e m →
      (jsonResponse .method_not_allowed none 405 []).status = claimedStatus e) ∧
    ((jsonResponse .method_not_allowed none 405 []).status ≠ 200 →
      ∃ e m, (jsonResponse .method_not_allowed none 405 []).body = .jsonError e m ∧
        (jsonResponse .method_not_allowed none 405 []).status = claimedStatus e) :=
  c2_error_status_mapping "POST" none [] .timeoutAbort
    (jsonResponse .method_not_allowed none 405 []) rfl

/-- The sequential global replaces of `escapeHtml` equal the one-pass
per-character entity encoding. -/
theorem escapeHtml_data (s : String) :
    (escapeHtml s).data = s.data.flatMap escapeCharSpec := by
  have h0 : (escapeHtml s).data =
      (((s.data.flatMap (fun a => if a = '&' then ("&amp;" : String).data else [a])).flatMap
        (fun a => if a = '<' then ("&lt;" : String).data else [a])).flatMap
        (fun a => if a = '>' then ("&gt;" : String).data else [a])).flatMap
        (fun a => if a = '"' then ("&quot;" : String).data else [a]) := rfl
  rw [h0, List.flatMap_assoc, List.flatMap_assoc, List.flatMap_assoc]
  congr 1
  funext a
  by_cases h1 : a = '&'
  · subst h1
    rfl
  · by_cases h2 : a = '<'
    · subst h2
      rfl
    · by_cases h3 : a = '>'
      · subst h3
        rfl
      · by_cases h4 : a = '"'
        · subst h4
          rfl
        · simp [escapeCharSpec, h1, h2, h3, h4]

/-- No character produced by the entity encoding is a raw `<`, `>` or
`"`. -/
theorem escapeCharSpec_no_markup (a ch : Char) (h : ch ∈ escapeCharSpec a) :
    ch ≠ '<' ∧ ch ≠ '>' ∧ ch ≠ '"' := by
  unfold escapeCharSpec at h
  by_cases h1 : a = '&'
  · subst h1
    have he : ("&amp;" : String).data = ['&', 'a', 'm', 'p', ';'] := rfl
    rw [if_pos rfl, he] at h
    simp only [List.mem_cons, List.not_mem_nil, or_false] at h
    rcases h with rfl | rfl | rfl | rfl | rfl
    all_goals exact ⟨by decide, by decide, by decide⟩
  · by_cases h2 : a = '<'
    · subst h2
      have he : ("&lt;" : String).data = ['&', 'l', 't', ';'] := rfl
      rw [if_neg h1, if_pos rfl, he] at h
      simp only [List.mem_cons, List.not_mem_nil, or_false] at h
      rcases h with rfl | rfl | rfl | rfl
      all_goals exact ⟨by decide, by decide, by decide⟩
    · by_cases h3 : a = '>'
      · subst h3
        have he : ("&gt;" : String).data = ['&', 'g', 't', ';'] := rfl
        rw [if_neg h1, if_neg h2, if_pos rfl, he] at h
        simp only [List.mem_cons, List.not_mem_nil, or_false] at h
        rcases h with rfl | rfl | rfl | rfl
        all_goals exact ⟨by decide, by decide, by decide⟩
      · by_cases h4 : a = '"'
        · subst h4
          have he : ("&quot;" : String).data = ['&', 'q', 'u', 'o', 't', ';'] := rfl
          rw [if_neg h1, if_neg h2, if_neg h3, if_pos rfl, he] at h
          simp only [List.mem_cons, List.not_mem_nil, or_false] at h
          rcases h with rfl | rfl | rfl | rfl | rfl | rfl
          all_goals exact ⟨by decide, by decide, by decide⟩
        · rw [if_neg h1, if_neg h2, if_neg h3, if_neg h4] at h
          simp only [List.mem_singleton] at h
          subst h
          exact ⟨h2, h3, h4⟩

/-- C8: the preview HTML embeds each dynamic value through `escapeHtml`,
whose effect is exactly the per-character replacement of ampersand,
less-than, greater-than and double-quote by their HTML entities; in
particular no escaped value contains a raw `<`, `>` or `"`, so no
dynamic value can open or close markup in the rendered document. -/
theorem c8_escape_injection_safety (title description canonicalUrl : String) :
    buildOgHtml title description canonicalUrl =
      ogTemplate (escapeHtml title) (escapeHtml description) (escapeHtml canonicalUrl) ∧
    (∀ s : String, (escapeHtml s).data = s.data.flatMap escapeCharSpec) ∧
    (∀ s : String, ∀ ch ∈ (escapeHtml s).data, ch ≠ '<' ∧ ch ≠ '>' ∧ ch ≠ '"') := by
  refine ⟨rfl, escapeHtml_data, ?_⟩
  intro s ch hch
  rw [escapeHtml_data] at hch
  obtain ⟨a, _, hcha⟩ := List.mem_flatMap.mp hch
  exact escapeCharSpec_no_markup a ch hcha

/-- C8 (witness): the no-markup guarantee applied to a concrete escaped
string and character. -/
theorem c8_escape_witness :
    ('&' : Char) ≠ '<' ∧ ('&' : Char) ≠ '>' ∧ ('&' : Char) ≠ '"' :=
  (c8_escape_injection_safety "x" "y" "z").2.2 "<" '&' (by decide)

/-- The rendered template contains the og:url meta tag with exactly its
third argument as the tag's content. -/
theorem ogTemplate_embeds_url (t d u : String) :
    ∃ pre post, ogTemplate t d u =
      pre ++ ("<meta property=\"og:url\" content=\"" ++ u ++ "\">") ++ post := by
  refine ⟨"<!DOCTYPE html>\n<html>\n<head>\n  <meta charset=\"utf-8\">\n  <title>" ++ t ++
    " — R→MD</title>\n  <meta property=\"og:title\" content=\"" ++ t ++
    "\">\n  <meta property=\"og:description\" content=\"" ++ d ++
    "\">\n  <meta property=\"og:site_name\" content=\"R→MD\">\n  <meta property=\"og:type\" content=\"article\">\n  ",
    "\n  <meta name=\"twitter:card\" content=\"summary\">\n</head>\n<body>\n  <p>Redirecting to <a href=\"" ++ u ++
    "\">R→MD</a>…</p>\n</body>\n</html>", ?_⟩
  simp only [ogTemplate, String.append_assoc]

/-- The preview HTML embeds the escaped canonical URL as the og:url
content. -/
theorem buildOgHtml_embeds_url (t d u : String) :
    ∃ pre post, buildOgHtml t d u =
      pre ++ ("<meta property=\"og:url\" content=\"" ++ escapeHtml u ++ "\">") ++ post :=
  ogTemplate_embeds_url (escapeHtml t) (escapeHtml d) (escapeHtml u)

/-- C9: every response of the preview handler — success or fallback —
renders the template over the same canonical URL, namely the interactive
page URL reconstructed from the original target parameter
(`https://peirce.net/reddit?url=` followed by the re-encoded target), and
that canonical URL is embedded (escaped) as the content of the og:url
meta tag; the preview therefore links back to the interactive page, never
to the upstream source. -/
theorem c9_preview_links_back (redditUrl : String) (cache : Cache)
    (world : UpstreamOutcome) (r : Response)
    (hr : (handleOgPreview redditUrl cache world).1 = some r) :
    ∃ t d, r.body = .text (buildOgHtml t d (canonicalFor redditUrl)) ∧
      ∃ pre post, buildOgHtml t d (canonicalFor redditUrl) =
        pre ++ ("<meta property=\"og:url\" content=\"" ++
          escapeHtml (canonicalFor redditUrl) ++ "\">") ++ post := by
  unfold handleOgPreview at hr
  simp only [] at hr
  split at hr
  · cases hr
    exact ⟨_, _, rfl, buildOgHtml_embeds_url _ _ _⟩
  · split at hr
    · cases hr
    · cases hr
      exact ⟨_, _, rfl, buildOgHtml_embeds_url _ _ _⟩
    · split at hr
      · cases hr
        exact ⟨_, _, rfl, buildOgHtml_embeds_url _ _ _⟩
      · split at hr
        · cases hr
          exact ⟨_, _, rfl, buildOgHtml_embeds_url _ _ _⟩
        · split at hr
          · cases hr
            exact ⟨_, _, rfl, buildOgHtml_embeds_url _ _ _⟩
          · cases hr

/-- C9 (witness): the canonical-URL property applied to a concrete
fallback response. -/
theorem c9_preview_links_back_witness :
    ∃ t d, (htmlResponse (buildOgHtml ogFallbackTitle ogFallbackDescription
        (canonicalFor "nope"))).body = .text (buildOgHtml t d (canonicalFor "nope")) ∧
      ∃ pre post, buildOgHtml t d (canonicalFor "nope") =
        pre ++ ("<meta property=\"og:url\" content=\"" ++
          escapeHtml (canonicalFor "nope") ++ "\">") ++ post :=
  c9_preview_links_back "nope" [] .timeoutAbort _ rfl

/-- C5 (counterexample): a crawler request for a valid thread whose
upstream payload carries a truthy non-string `title` (here the JSON value
`true`) does not produce a 200 HTML document: the handler crashes
(modelled as `none`), because `escapeHtml` invokes `.replace` on the
non-string title, throwing an uncaught `TypeError` that surfaces as a
non-200 error from the worker runtime. -/
theorem c5_preview_counterexample :
    (handleOgPreview "https://www.reddit.com/r/a/comments/b" []
      (.response ⟨200, [("content-type", "application/json")],
        "[\x7b\"data\":\x7b\"children\":[\x7b\"data\":\x7b\"title\":true\x7d\x7d]\x7d\x7d]"⟩)).1 =
      none := by
  rfl

/-- C5 (amended): given the cache invariant, the preview handler returns
HTTP 200 with an HTML document in every case except one: every produced
response has status 200 and the HTML content type; validation failure,
fetch failure, a missing payload structure and a falsy title all produce
the fixed fallback document; the sole exception is a successfully fetched
payload whose `title` field is a truthy non-string JSON value, which
crashes the handler (uncaught `TypeError` in `escapeHtml`) instead of
producing a response. -/
theorem c5_preview_amended (redditUrl : String) (cache : Cache)
    (world : UpstreamOutcome) (hwf : cacheWF cache) :
    (∀ r, (handleOgPreview redditUrl cache world).1 = some r →
      r.status = 200 ∧ r.headers = [("Content-Type", "text/html; charset=utf-8")]) ∧
    ((handleOgPreview redditUrl cache world).1 = none →
      ∃ jsonUrl hn cp body data titleV,
        validateRedditUrl (some redditUrl) = .ok jsonUrl hn cp ∧
        (fetchRedditJson cache world jsonUrl).1 = .ok body data ∧
        (postOf data).bind (fun p => jsonGet p "title") = some titleV ∧
        jsTruthy titleV = true ∧ ∀ s, titleV ≠ .str s) ∧
    (∀ resp, validateRedditUrl (some redditUrl) = .err resp →
      (handleOgPreview redditUrl cache world).1 =
        some (htmlResponse (buildOgHtml ogFallbackTitle ogFallbackDescription
          (canonicalFor redditUrl)))) ∧
    (∀ jsonUrl hn cp resp c2, validateRedditUrl (some redditUrl) = .ok jsonUrl hn cp →
      fetchRedditJson cache world jsonUrl = (.err resp, c2) →
      (handleOgPreview redditUrl cache world).1 =
        some (htmlResponse (buildOgHtml ogFallbackTitle ogFallbackDescription
          (canonicalFor redditUrl)))) ∧
    (∀ jsonUrl hn cp body data c2, validateRedditUrl (some redditUrl) = .ok jsonUrl hn cp →
      fetchRedditJson cache world jsonUrl = (.ok body data, c2) →
      (postOf data).bind (fun p => jsonGet p "title") = none →
      (handleOgPreview redditUrl cache world).1 =
        some (htmlResponse (buildOgHtml ogFallbackTitle ogFallbackDescription
          (canonicalFor redditUrl)))) ∧
    (∀ jsonUrl hn cp body data c2 titleV, validateRedditUrl (some redditUrl) = .ok jsonUrl hn cp →
      fetchRedditJson cache world jsonUrl = (.ok body data, c2) →
      (postOf data).bind (fun p => jsonGet p "title") = some titleV →
      jsTruthy titleV = false →
      (handleOgPreview redditUrl cache world).1 =
        some (htmlResponse (buildOgHtml ogFallbackTitle ogFallbackDescription
          (canonicalFor redditUrl)))) := by
  refine ⟨?_, ?_, ?_, ?_, ?_, ?_⟩
  · intro r hr
    unfold handleOgPreview at hr
    simp only [] at hr
    split at hr
    · cases hr
      exact ⟨rfl, rfl⟩
    · split at hr
      · cases hr
      · cases hr
        exact ⟨rfl, rfl⟩
      · split at hr
        · cases hr
          exact ⟨rfl, rfl⟩
        · split at hr
          · cases hr
            exact ⟨rfl, rfl⟩
          · split at hr
            · cases hr
              exact ⟨rfl, rfl⟩
            · cases hr
  · intro hnone
    unfold handleOgPreview at hnone
    simp only [] at hnone
    split at hnone
    · cases hnone
    · rename_i xv ju hn cp hv
      split at hnone
      · rename_i c2 hf
        have hpre := fetchRedditJson_preserves cache world ju hwf
        rw [hf] at hpre
        exact absurd rfl hpre.2
      · cases hnone
      · rename_i bd dv c2 hf
        split at hnone
        · cases hnone
        · rename_i titleV htitle
          split at hnone
          · cases hnone
          · rename_i htruthy
            split at hnone
            · cases hnone
            · rename_i hnostr
              refine ⟨ju, hn, cp, bd, dv, titleV, hv, ?_, htitle, ?_, ?_⟩
              · rw [hf]
              · by_contra hfalse
                exact htruthy (by simp [Bool.not_eq_true] at hfalse ⊢; exact hfalse)
              · intro s hcontra
                exact hnostr s hcontra
  · intro resp hv
    unfold handleOgPreview
    simp only [hv]
  · intro jsonUrl hn cp resp c2 hv hf
    unfold handleOgPreview
    simp only [hv, hf]
  · intro jsonUrl hn cp body data c2 hv hf htitle
    unfold handleOgPreview
    simp only [hv, hf, htitle]
  · intro jsonUrl hn cp body data c2 titleV hv hf htitle hfalsy
    unfold handleOgPreview
    simp only [hv, hf, htitle, hfalsy]
    rfl

/-- C5 (witness): the amended preview behavior applied to a concrete
invalid target: the fallback response is produced and has status 200 with
the HTML content type. -/
theorem c5_preview_witness :
    (htmlResponse (buildOgHtml ogFallbackTitle ogFallbackDescription
      (canonicalFor "nope"))).status = 200 ∧
    (htmlResponse (buildOgHtml ogFallbackTitle ogFallbackDescription
      (canonicalFor "nope"))).headers = [("Content-Type", "text/html; charset=utf-8")] :=
  (c5_preview_amended "nope" [] .timeoutAbort (fun p hp => absurd hp (List.not_mem_nil p))).1
    _ rfl

/-- takeWhile passes over a prefix whose members all satisfy the
predicate. -/
theorem takeWhile_append_of_all {p : Char → Bool} : ∀ (pre l : List Char),
    pre.all p = true → (pre ++ l).takeWhile p = pre ++ l.takeWhile p
  | [], _, _ => rfl
  | a :: as, l, h => by
    simp only [List.all_cons, Bool.and_eq_true] at h
    simp only [List.cons_append, List.takeWhile_cons_of_pos h.1]
    rw [takeWhile_append_of_all as l h.2]

/-- dropWhile consumes a prefix whose members all satisfy the
predicate. -/
theorem dropWhile_append_of_all {p : Char → Bool} : ∀ (pre l : List Char),
    pre.all p = true → (pre ++ l).dropWhile p = l.dropWhile p
  | [], _, _ => rfl
  | a :: as, l, h => by
    simp only [List.all_cons, Bool.and_eq_true] at h
    simp only [List.cons_append, List.dropWhile_cons_of_pos h.1]
    rw [dropWhile_append_of_all as l h.2]

/-- takeWhile is the identity on a list all of whose members satisfy the
predicate. -/
theorem takeWhile_all_self {p : Char → Bool} : ∀ (l : List Char),
    l.all p = true → l.takeWhile p = l
  | [], _ => rfl
  | a :: as, h => by
    simp only [List.all_cons, Bool.and_eq_true] at h
    rw [List.takeWhile_cons_of_pos h.1, takeWhile_all_self as h.2]

/-- A successful `dropPrefixL` decomposes its input. -/
theorem dropPrefixL_eq : ∀ (p l r : List Char), dropPrefixL p l = some r → l = p ++ r
  | [], _, _, h => by
    cases h
    rfl
  | _ :: _, [], _, h => by
    cases h
  | a :: as, b :: bs, r, h => by
    unfold dropPrefixL at h
    split at h
    · rename_i hab
      subst hab
      rw [List.cons_append]
      exact congrArg _ (dropPrefixL_eq as bs r h)
    · cases h

/-- Subreddit-name characters are not `?` or `#`. -/
theorem isSubredditChar_path (c : Char) (h : isSubredditChar c = true) :
    isPathChar c = true := by
  by_cases h1 : c = '?'
  · subst h1
    exact absurd h (by decide)
  · by_cases h2 : c = '#'
    · subst h2
      exact absurd h (by decide)
    · simp [isPathChar, h1, h2]

/-- Thread-id characters are not `?` or `#`. -/
theorem isThreadIdChar_path (c : Char) (h : isThreadIdChar c = true) :
    isPathChar c = true := by
  by_cases h1 : c = '?'
  · subst h1
    exact absurd h (by decide)
  · by_cases h2 : c = '#'
    · subst h2
      exact absurd h (by decide)
    · simp [isPathChar, h1, h2]

/-- Every member of the residue left by the thread regex is `?`/`#`-free. -/
theorem threadPathRest_path (r2 : List Char)
    (hrest : (if (r2.dropWhile isThreadIdChar).isEmpty = true then true
      else if (r2.dropWhile isThreadIdChar).headD ' ' = '/' then
        (r2.dropWhile isThreadIdChar).tail.all isPathChar
      else false) = true) :
    ∀ ch ∈ r2.dropWhile isThreadIdChar, isPathChar ch = true := by
  intro ch hch
  rcases hd : r2.dropWhile isThreadIdChar with _ | ⟨c0, slug⟩
  · rw [hd] at hch
    cases hch
  · rw [hd] at hrest hch
    simp only [List.isEmpty_cons, List.headD_cons, List.tail_cons] at hrest
    by_cases hc0 : c0 = '/'
    · subst hc0
      rw [if_neg (by simp), if_pos rfl] at hrest
      simp only [List.mem_cons] at hch
      rcases hch with rfl | hch
      · decide
      · exact List.all_eq_true.mp hrest ch hch
    · rw [if_neg (by simp), if_neg hc0] at hrest
      exact absurd hrest (by decide)

theorem threadPathTest_props (l : List Char) (h : threadPathTest l = true) :
    (∃ cs, l = '/' :: cs) ∧ ∀ ch ∈ l, isPathChar ch = true := by
  unfold threadPathTest at h
  rcases hpre : dropPrefixL ("/r/" : String).data l with _ | r1
  · simp only [hpre] at h
    exact absurd h (by decide)
  · simp only [hpre] at h
    have hl : l = '/' :: 'r' :: '/' :: r1 := dropPrefixL_eq _ _ _ hpre
    by_cases hsub : (r1.takeWhile isSubredditChar).isEmpty = true
    · rw [if_pos hsub] at h
      exact absurd h (by decide)
    · rw [if_neg hsub] at h
      rcases hpre2 : dropPrefixL ("/comments/" : String).data (r1.dropWhile isSubredditChar) with _ | r2
      · simp only [hpre2] at h
        exact absurd h (by decide)
      · simp only [hpre2] at h
        have hcomments : r1.dropWhile isSubredditChar = ("/comments/" : String).data ++ r2 :=
          dropPrefixL_eq _ _ _ hpre2
        by_cases htid : (r2.takeWhile isThreadIdChar).isEmpty = true
        · rw [if_pos htid] at h
          exact absurd h (by decide)
        · rw [if_neg htid] at h
          have hrestmem := threadPathRest_path r2 h
          have hmem : ∀ ch ∈ l, isPathChar ch = true := by
            intro ch hch
            rw [hl] at hch
            simp only [List.mem_cons] at hch
            rcases hch with rfl | rfl | rfl | hch
            · decide
            · decide
            · decide
            · rw [← List.takeWhile_append_dropWhile isSubredditChar r1] at hch
              rcases List.mem_append.mp hch with hch | hch
              · exact isSubredditChar_path ch (List.mem_takeWhile_imp hch)
              · rw [hcomments] at hch
                rcases List.mem_append.mp hch with hch | hch
                · exact (by decide : ∀ ch ∈ ("/comments/" : String).data, isPathChar ch = true) ch hch
                · rw [← List.takeWhile_append_dropWhile isThreadIdChar r2] at hch
                  rcases List.mem_append.mp hch with hch | hch
                  · exact isThreadIdChar_path ch (List.mem_takeWhile_imp hch)
                  · exact hrestmem ch hch
          exact ⟨⟨'r' :: '/' :: r1, hl⟩, hmem⟩

/-- Stripping trailing slashes is the identity on a path ending in
`.json`. -/
theorem dropTrailingSlashes_append_json (x : List Char) :
    dropTrailingSlashes (x ++ (".json" : String).data) = x ++ (".json" : String).data := by
  unfold dropTrailingSlashes
  rw [List.reverse_append]
  have h5 : ((".json" : String).data).reverse = 'n' :: 'o' :: 's' :: 'j' :: '.' :: [] := rfl
  rw [h5]
  simp only [List.cons_append, List.nil_append]
  rw [List.dropWhile_cons_of_neg (by decide)]
  have h6 : ('n' :: 'o' :: 's' :: 'j' :: '.' :: x.reverse) =
      ((".json" : String).data).reverse ++ x.reverse := by
    rw [h5]
    simp only [List.cons_append, List.nil_append]
  rw [h6, ← List.reverse_append, List.reverse_reverse]

/-- Inversion of a successful validation: the components of the
`TargetSpec` in terms of the parsed URL. -/
theorem validateRedditUrl_ok_inv {t : Option String} {j h c : String}
    (hv : validateRedditUrl t = .ok j h c) :
    ∃ s u, t = some s ∧ parseURL s = some u ∧ u.protocol = "https:" ∧
      h = u.hostname ∧ (h = "www.reddit.com" ∨ h = "old.reddit.com") ∧
      c = String.mk (dropTrailingSlashes u.pathname.data) ∧
      threadPathTest c.data = true ∧
      j = "https://" ++ h ++ c ++ ".json" := by
  unfold validateRedditUrl at hv
  split at hv
  · cases hv
  · split at hv
    · cases hv
    · split at hv
      · cases hv
      · split at hv
        · cases hv
        · split at hv
          · cases hv
          · simp only [] at hv
            split at hv
            · cases hv
            · rename_i s hne x u hp hproto hhost hpath
              cases hv
              have hhost2 : u.hostname ∈ ALLOWED_HOSTS := by
                simpa using not_not.mp hhost
              have hhost3 : u.hostname = "www.reddit.com" ∨ u.hostname = "old.reddit.com" := by
                simpa [ALLOWED_HOSTS] using hhost2
              exact ⟨s, u, rfl, hp, not_not.mp hproto, rfl, hhost3, rfl,
                not_not.mp hpath, rfl⟩

/-- Computation of the URL-parser model on `https://host/path` for a
well-behaved host and a `?`/`#`-free absolute path. -/
theorem parseURL_https_host (hostD : List Char) (c : String) (cs : List Char)
    (hcs : c.data = '/' :: cs)
    (hcsall : cs.all isPathChar = true)
    (hauth : hostD.all isAuthorityChar = true)
    (hnoat : hostD.contains '@' = false)
    (hnocolon : hostD.all (fun ch => ch ≠ ':') = true)
    (hlower : hostD.map Char.toLower = hostD)
    (hne : hostD.isEmpty = false)
    (hdata : ("https://" ++ String.mk hostD ++ c).data =
      'h' :: 't' :: 't' :: 'p' :: 's' :: ':' :: '/' :: '/' :: (hostD ++ ('/' :: cs))) :
    parseURL ("https://" ++ String.mk hostD ++ c) = some ⟨"https:", String.mk hostD, c⟩ := by
  have h1 : List.takeWhile isSchemeChar
      ('h' :: 't' :: 't' :: 'p' :: 's' :: ':' :: '/' :: '/' :: (hostD ++ ('/' :: cs))) =
      'h' :: 't' :: 't' :: 'p' :: 's' :: [] := by
    rw [List.takeWhile_cons_of_pos (by decide), List.takeWhile_cons_of_pos (by decide),
      List.takeWhile_cons_of_pos (by decide), List.takeWhile_cons_of_pos (by decide),
      List.takeWhile_cons_of_pos (by decide), List.takeWhile_cons_of_neg (by decide)]
  have h2 : List.dropWhile isSchemeChar
      ('h' :: 't' :: 't' :: 'p' :: 's' :: ':' :: '/' :: '/' :: (hostD ++ ('/' :: cs))) =
      ':' :: '/' :: '/' :: (hostD ++ ('/' :: cs)) := by
    rw [List.dropWhile_cons_of_pos (by decide), List.dropWhile_cons_of_pos (by decide),
      List.dropWhile_cons_of_pos (by decide), List.dropWhile_cons_of_pos (by decide),
      List.dropWhile_cons_of_pos (by decide), List.dropWhile_cons_of_neg (by decide)]
  have h3 : List.takeWhile isAuthorityChar (hostD ++ ('/' :: cs)) = hostD := by
    rw [takeWhile_append_of_all _ _ hauth, List.takeWhile_cons_of_neg (by decide),
      List.append_nil]
  have h4 : List.dropWhile isAuthorityChar (hostD ++ ('/' :: cs)) = '/' :: cs := by
    rw [dropWhile_append_of_all _ _ hauth, List.dropWhile_cons_of_neg (by decide)]
  have h5 : dropUserinfo hostD = hostD := by
    unfold dropUserinfo
    rw [if_neg (by rw [hnoat]; exact Bool.false_ne_true)]
  have h6 : dropPort hostD = hostD := by
    unfold dropPort
    exact takeWhile_all_self _ hnocolon
  have h8 : List.takeWhile isPathChar ('/' :: cs) = '/' :: cs := by
    rw [List.takeWhile_cons_of_pos (by decide), takeWhile_all_self cs hcsall]
  unfold parseURL
  simp only []
  rw [hdata, h1, h2]
  simp only [List.isEmpty_cons, List.headD_cons, List.tail_cons]
  rw [if_neg (by decide), if_neg (by decide), if_neg (by decide), if_pos (by decide)]
  rw [h3, h5, h6, hlower]
  rw [if_neg (by simp [hne])]
  rw [h4, h8]
  rw [if_neg (by simp)]
  rw [← hcs]
  rfl

/-- The URL-parser model parses a derived upstream URL back to its
components, for an allow-listed host and a thread path. -/
theorem parseURL_https (host c : String)
    (hh : host = "www.reddit.com" ∨ host = "old.reddit.com")
    (hc1 : ∃ cs, c.data = '/' :: cs)
    (hc2 : ∀ ch ∈ c.data, isPathChar ch = true) :
    parseURL ("https://" ++ host ++ c) = some ⟨"https:", host, c⟩ := by
  obtain ⟨cs, hcs⟩ := hc1
  have hcsall : cs.all isPathChar = true := by
    rw [List.all_eq_true]
    intro ch hch
    exact hc2 ch (by rw [hcs]; exact List.mem_cons_of_mem _ hch)
  rcases hh with rfl | rfl
  · exact parseURL_https_host ("www.reddit.com" : String).data c cs hcs hcsall
      (by decide) (by decide) (by decide) (by decide) (by decide)
      (by rw [String.data_append, String.data_append, hcs]; rfl)
  · exact parseURL_https_host ("old.reddit.com" : String).data c cs hcs hcsall
      (by decide) (by decide) (by decide) (by decide) (by decide)
      (by rw [String.data_append, String.data_append, hcs]; rfl)

/-- C3 (counterexample): the derived upstream URL of a validated target
does not, in general, re-validate to the same TargetSpec.  The slugless
thread `https://www.reddit.com/r/test/comments/abc123` validates and
derives `.../abc123.json`, but re-validating that derived URL fails with
`invalid_path`: the thread-id character class `[a-z0-9]` does not admit
`.`, so `abc123.json` does not match the thread regex. -/
theorem c3_roundtrip_counterexample :
    validateRedditUrl (some "https://www.reddit.com/r/test/comments/abc123") =
      .ok "https://www.reddit.com/r/test/comments/abc123.json" "www.reddit.com"
        "/r/test/comments/abc123" ∧
    validateRedditUrl (some "https://www.reddit.com/r/test/comments/abc123.json") =
      .err (jsonResponse .invalid_path
        (some "URL must be a Reddit thread (/r/…/comments/…)") 400 []) := by
  exact ⟨rfl, rfl⟩

/-- C3 (amended): for every raw target that validates successfully, the
derived upstream URL is the normalized path with `.json` appended under
the same hostname and scheme; but feeding it back into the validator
never yields the same TargetSpec: whenever re-validation succeeds it
preserves the hostname yet extends the canonical path (and hence the
derived URL) by a further `.json`, and on slugless paths it fails with
`invalid_path`. -/
theorem c3_roundtrip_amended (t : Option String) (j h c : String)
    (hv : validateRedditUrl t = .ok j h c) :
    j = "https://" ++ h ++ c ++ ".json" ∧
    ∀ j2 h2 c2, validateRedditUrl (some j) = .ok j2 h2 c2 →
      h2 = h ∧ c2 = c ++ ".json" ∧ j2 = j ++ ".json" ∧ c2 ≠ c := by
  obtain ⟨s, u, ht, hp, hproto, hh, hhosts, hc, hpath, hj⟩ := validateRedditUrl_ok_inv hv
  refine ⟨hj, ?_⟩
  intro j2 h2 c2 hv2
  have hprops := threadPathTest_props c.data hpath
  have hparse : parseURL ("https://" ++ h ++ (c ++ ".json")) =
      some ⟨"https:", h, c ++ ".json"⟩ := by
    apply parseURL_https h (c ++ ".json") hhosts
    · obtain ⟨⟨cs, hcs⟩, _⟩ := hprops
      refine ⟨cs ++ (".json" : String).data, ?_⟩
      rw [String.data_append, hcs, List.cons_append]
    · intro ch hch
      rw [String.data_append] at hch
      rcases List.mem_append.mp hch with hch | hch
      · exact hprops.2 ch hch
      · exact (by decide : ∀ ch ∈ (".json" : String).data, isPathChar ch = true) ch hch
  have hj2 : j = "https://" ++ h ++ (c ++ ".json") := by
    rw [hj, String.append_assoc]
  obtain ⟨s2, u2, ht2, hp2, hproto2, hh2, hhosts2, hc2, hpath2, hjj2⟩ :=
    validateRedditUrl_ok_inv hv2
  cases ht2
  rw [hj2, hparse] at hp2
  cases hp2
  have hh2b : h2 = h := hh2
  have hcc2 : c2 = c ++ ".json" := by
    rw [hc2]
    simp only []
    rw [String.data_append, dropTrailingSlashes_append_json]
    rfl
  refine ⟨hh2b, hcc2, ?_, ?_⟩
  · rw [hjj2, hh2b, hcc2, hj]
    simp [String.append_assoc]
  · rw [hcc2]
    intro heq
    have hlen := congrArg String.length heq
    rw [String.length_append] at hlen
    have h5 : (".json" : String).length = 5 := rfl
    rw [h5] at hlen
    omega

/-- C3 (witness): the amended round-trip behavior at a concrete slugged
thread: the derived URL re-validates to a TargetSpec whose canonical path
gained `.json`, so it differs from the original. -/
theorem c3_roundtrip_witness :
    ("https://www.reddit.com/r/test/comments/abc123/title.json" : String) =
      "https://" ++ "www.reddit.com" ++ "/r/test/comments/abc123/title" ++ ".json" ∧
    ("www.reddit.com" : String) = "www.reddit.com" ∧
    ("/r/test/comments/abc123/title.json" : String) =
      "/r/test/comments/abc123/title" ++ ".json" ∧
    ("https://www.reddit.com/r/test/comments/abc123/title.json.json" : String) =
      "https://www.reddit.com/r/test/comments/abc123/title.json" ++ ".json" ∧
    ("/r/test/comments/abc123/title.json" : String) ≠ "/r/test/comments/abc123/title" := by
  have h := c3_roundtrip_amended (some "https://www.reddit.com/r/test/comments/abc123/title")
    "https://www.reddit.com/r/test/comments/abc123/title.json" "www.reddit.com"
    "/r/test/comments/abc123/title" rfl
  have h2 := h.2 "https://www.reddit.com/r/test/comments/abc123/title.json.json"
    "www.reddit.com" "/r/test/comments/abc123/title.json" rfl
  exact ⟨h.1, h2.1, h2.2.1, h2.2.2.1, h2.2.2.2⟩

end RedditProxy
